import Mathlib

/-
Verification development for the Digital Frontdesk agent (src/main.py).

The Python core is shallowly embedded below.  Python strings are Lean
`String`s manipulated through their character lists; Python `None` on a
string-valued field is `Option String`; Python truthiness of strings,
options and lists is made explicit (`strTruthy`, `optTruthy`, `listTruthy`).
Timestamps produced by `now_iso` are modelled as the `Nat` reading of the
external clock (a `now` argument threaded into every function that calls
`now_iso`); the id generator `str(uuid.uuid4())[:8]` is modelled as a
`fresh` argument.  `now_iso` always returns a non-empty string, so a stored
timestamp is always truthy; the one `or` applied to a stored timestamp is
therefore modelled by `Option.getD`-style matching.

Python's module-level mutable objects are modelled explicitly: `SESSIONS`
and `TICKETS` are association lists preserving insertion order (Python
dicts), and — because `get_or_init_state` builds a fresh state with
`dict(DEFAULT_STATE)`, a shallow copy — the `details` list object and the
`collected` dict object of a state are represented by indices
(`detailsRef`, `collectedRef`) into small heaps of list/dict objects held
in `Env`.  `DEFAULT_STATE` owns heap cells 0/0, and a shallow copy copies
the indices, exactly as the Python shallow copy shares the two objects.
-/

namespace Frontdesk

set_option maxRecDepth 40000

/-! ### Python string primitives -/

/-- Prefix test on character lists (needle, haystack). -/
def isPre : List Char → List Char → Bool
  | [], _ => true
  | _ :: _, [] => false
  | a :: as, b :: bs => a == b && isPre as bs

/-- Substring test on character lists: Python's `needle in haystack`. -/
def isSubList (pat : List Char) : List Char → Bool
  | [] => isPre pat []
  | c :: rest => isPre pat (c :: rest) || isSubList pat rest

/-- Python `pat in hay` on strings. -/
def isSub (pat hay : String) : Bool := isSubList pat.toList hay.toList

/-- Python `str.lower()` (ASCII, as every keyword in the source is ASCII). -/
def pyLower (s : String) : String := String.mk (s.toList.map Char.toLower)

/-- Python `str.strip()`: drop leading and trailing whitespace. -/
def pyStrip (s : String) : String :=
  String.mk ((((s.toList.dropWhile Char.isWhitespace).reverse).dropWhile Char.isWhitespace).reverse)

/-- Python truthiness of a string: non-empty. -/
def strTruthy (s : String) : Bool := !(s == "")

/-- Python truthiness of an optional string: present and non-empty. -/
def optTruthy : Option String → Bool
  | none => false
  | some s => strTruthy s

/-- Python truthiness of a list: non-empty. -/
def listTruthy (l : List String) : Bool := !l.isEmpty

/-- Python `a or b` where `a` is an optional string and `b` a string. -/
def pyOr : Option String → String → String
  | none, b => b
  | some s, b => if s = "" then b else s

/-- Python `str(x)` for an optional string, as used in f-strings: `None` prints as `"None"`. -/
def pyShowOpt : Option String → String
  | none => "None"
  | some s => s

/-- Helper for `pyTitle`: the flag records whether the previous character was alphabetic. -/
def pyTitleList : Bool → List Char → List Char
  | _, [] => []
  | prevAlpha, c :: cs =>
    if c.isAlpha then (if prevAlpha then c.toLower else c.toUpper) :: pyTitleList true cs
    else c :: pyTitleList false cs

/-- Python `str.title()`: first letter of every letter-run uppercased, the rest lowercased. -/
def pyTitle (s : String) : String := String.mk (pyTitleList false s.toList)

/-- Python `str.replace("_", " ")`. -/
def pyUnderscoreToSpace (s : String) : String :=
  String.mk (s.toList.map (fun c => if c = '_' then ' ' else c))

/-- Python `t.split(pat, 1)[1]` on character lists: the text after the first
occurrence of `pat`, or `none` when `pat` does not occur (where the Python
subscript `[1]` would raise `IndexError`). -/
def splitAfterList (pat : List Char) : List Char → Option (List Char)
  | [] => if isPre pat [] then some [] else none
  | c :: rest =>
    if isPre pat (c :: rest) then some ((c :: rest).drop pat.length)
    else splitAfterList pat rest

/-- Python `s.split(pat, 1)[1]` on strings (`none` where Python would raise). -/
def splitAfter (s pat : String) : Option String :=
  (splitAfterList pat.toList s.toList).map String.mk

/-- Python `sep.join(parts)`. -/
def joinSep (sep : String) : List String → String
  | [] => ""
  | [x] => x
  | x :: y :: rest => x ++ sep ++ joinSep sep (y :: rest)

/-- Python `l[-n:]`: the last `n` elements. -/
def lastN (n : Nat) (l : List α) : List α := l.drop (l.length - n)

/-- Python `any(x in t for x in kws)`. -/
def anyKw (kws : List String) (t : String) : Bool := kws.any (fun k => isSub k t)

/-! ### Association lists (Python dicts, insertion-ordered) -/

/-- `d.get(k)` on an insertion-ordered dict. -/
def lookupA : List (String × α) → String → Option α
  | [], _ => none
  | p :: rest, k => if p.1 = k then some p.2 else lookupA rest k

/-- `k in d` on an insertion-ordered dict. -/
def hasKey : List (String × α) → String → Bool
  | [], _ => false
  | p :: rest, k => if p.1 = k then true else hasKey rest k

/-- `d[k] = v` on an insertion-ordered dict: replace in place, or append. -/
def assocSet (l : List (String × α)) (k : String) (v : α) : List (String × α) :=
  if hasKey l k then l.map (fun p => if p.1 = k then (k, v) else p) else l ++ [(k, v)]

/-! ### Data model -/

/-- The `collected` dict of a conversation state (src/main.py lines 46-50). -/
structure Collected where
  name : Option String
  phone : Option String
  best_time : Option String
deriving Repr, DecidableEq

/-- One conversation-state dict.  `detailsRef` / `collectedRef` are the
identities of the mutable `details` list object and `collected` dict object
(indices into the heaps in `Env`); all other fields are immutable values
replaced wholesale on assignment, exactly as in the Python dict. -/
structure EnvState where
  step : String
  intent : Option String
  procedure : Option String
  topic : Option String
  detailsRef : Nat
  collectedRef : Nat
  created_at : Option Nat
  updated_at : Option Nat
deriving Repr, DecidableEq

/-- One ticket record (src/main.py lines 247-259).  `contactRef` models that the
source stores the `collected` dict object itself (`state.get("collected", {})`),
not a copy; `conversation_facts` is a genuine copy (`[-10:]` slicing). -/
structure Ticket where
  ticket_id : String
  session_id : String
  created_at : Nat
  updated_at : Nat
  intent : Option String
  procedure : Option String
  topic : String
  summary : String
  contactRef : Nat
  conversation_facts : List String
  status : String
deriving Repr, DecidableEq

/-- The module-level mutable environment: the two object heaps, `SESSIONS`
and `TICKETS` (src/main.py lines 15-16). -/
structure Env where
  listHeap : List (List String)
  collHeap : List Collected
  sessions : List (String × EnvState)
  tickets : List (String × Ticket)
deriving Repr, DecidableEq

def getList (env : Env) (r : Nat) : List String := env.listHeap.getD r []

def setList (env : Env) (r : Nat) (v : List String) : Env :=
  { env with listHeap := env.listHeap.set r v }

def getColl (env : Env) (r : Nat) : Collected := env.collHeap.getD r ⟨none, none, none⟩

def setColl (env : Env) (r : Nat) (v : Collected) : Env :=
  { env with collHeap := env.collHeap.set r v }

/-- `DEFAULT_STATE` (src/main.py lines 40-53).  Its `details` list and
`collected` dict are the heap objects 0 and 0 of `initEnv`. -/
def DEFAULT_STATE : EnvState :=
  { step := "TRIAGE", intent := none, procedure := none, topic := none,
    detailsRef := 0, collectedRef := 0, created_at := none, updated_at := none }

/-- The process at import time: empty `SESSIONS`/`TICKETS`, and the two
module-level objects owned by `DEFAULT_STATE`. -/
def initEnv : Env :=
  { listHeap := [[]], collHeap := [⟨none, none, none⟩], sessions := [], tickets := [] }

/-- `get_or_init_state` (src/main.py lines 63-72).  A present `prior_state`
dict is non-empty, hence truthy.  `dict(DEFAULT_STATE)` is a shallow copy:
the record is copied, the `detailsRef`/`collectedRef` object identities are
shared. -/
def get_or_init_state (session_id : String) (prior_state : Option EnvState)
    (env : Env) (now : Nat) : EnvState :=
  match prior_state with
  | some st => st
  | none =>
    match lookupA env.sessions session_id with
    | some st => st
    | none => { DEFAULT_STATE with created_at := some now, updated_at := some now }

/-- `save_state` (src/main.py lines 75-77). -/
def save_state (session_id : String) (st : EnvState) (env : Env) (now : Nat) : Env :=
  { env with sessions := assocSet env.sessions session_id { st with updated_at := some now } }

/-! ### NLU -/

/-- The result dict of `classify_intent_and_procedure`. -/
structure Nlu where
  intent : Option String
  procedure : Option String
deriving Repr, DecidableEq

/-- `classify_intent_and_procedure` (src/main.py lines 83-151), the ordered
keyword cascades translated branch for branch.  In the source the final
procedure branch re-tests `procedure is None`; inside the `elif` chain that
test is always true, so it is the plain final branch here. -/
def classify_intent_and_procedure (text : String) : Nlu :=
  let t := pyStrip (pyLower text)
  let intent : Option String :=
    if anyKw ["antibiotic", "antibiotics", "amoxicillin", "penicillin"] t then
      some "MEDICAL_ADVICE"
    else if anyKw ["emergency", "severe pain", "unbearable pain", "bleeding", "swollen",
        "swelling", "urgent"] t then
      some "EMERGENCY"
    else if anyKw ["book", "booking", "appointment", "make an appointment", "schedule",
        "set an appointment"] t then
      some "BOOK_APPOINTMENT"
    else if anyKw ["opening hours", "open hours", "working hours", "business hours",
        "when are you open", "when do you open", "when do you close",
        "opening time", "closing time", "hours"] t then
      some "OPENING_HOURS"
    else if anyKw ["insurance", "public insurance", "private pay", "private insurance",
        "coverage", "insured"] t then
      some "INSURANCE"
    else if anyKw ["price", "cost", "how much", "pricing", "fee", "rates", "quote"] t then
      some "PRICING"
    else if anyKw ["do you offer", "services", "what do you do", "offer", "treatments",
        "procedures"] t then
      some "SERVICES"
    else none
  let procedure : Option String :=
    if anyKw ["implant", "implants"] t then some "implant"
    else if isSub "cleaning" t || isSub "scale" t || isSub "scaling" t then some "cleaning"
    else if anyKw ["filling", "fillings", "cavity"] t then some "filling"
    else if isSub "root canal" t || isSub "endodont" t then some "root_canal"
    else if anyKw ["crown", "crowns", "bridge", "bridges"] t then some "crown_bridge"
    else if anyKw ["check-up", "checkup", "consult", "consultation", "examination"] t then
      some "consultation"
    else if anyKw ["kids", "child", "children", "pediatric"] t then some "kids_dentistry"
    else if anyKw ["toothache", "pain", "emergency"] t then some "emergency_consult"
    else none
  { intent := intent, procedure := procedure }

/-- The name validation of src/main.py line 170: `1 <= len(name) <= 60 and
all(ch.isalpha() or ch in " -'" for ch in name)` (`Char.ofNat 39` is the
apostrophe). -/
def validName (name : String) : Bool :=
  decide (1 ≤ name.toList.length) && decide (name.toList.length ≤ 60) &&
    name.toList.all (fun ch => ch.isAlpha || ch == ' ' || ch == '-' || ch == Char.ofNat 39)

/-- The name block of `update_collected_from_text` (src/main.py lines
163-171).  The `none` case of the split is where the Python subscript `[1]`
would raise `IndexError` (lower-cased trigger found but case-sensitive split
pattern absent); no slot is written there. -/
def upd_name (c : Collected) (t low : String) : Collected :=
  if c.name = none ∧ (isSub "my name is" low || isSub "i am " low) then
    let nameOpt : Option String :=
      if isSub "my name is" low then (splitAfter t "is").map pyStrip
      else (splitAfter t "am").map pyStrip
    match nameOpt with
    | some name => if validName name then { c with name := some name } else c
    | none => c
  else c

/-- The phone block of `update_collected_from_text` (src/main.py lines 174-177). -/
def upd_phone (c : Collected) (t : String) : Collected :=
  if c.phone = none then
    let digits := String.mk (t.toList.filter (fun ch => ch.isDigit || ch == '+'))
    if 8 ≤ (digits.toList.filter Char.isDigit).length then { c with phone := some digits }
    else c
  else c

/-- The best-time block of `update_collected_from_text` (src/main.py lines 180-185). -/
def upd_best_time (c : Collected) (t low : String) : Collected :=
  if c.best_time = none then
    if anyKw ["morning", "afternoon", "evening", "tomorrow", "today",
        "monday", "tuesday", "wednesday", "thursday", "friday", "saturday", "sunday"] low then
      { c with best_time := some (pyStrip t) }
    else c
  else c

/-- The effect of `update_collected_from_text` (src/main.py lines 155-187) on
the `collected` dict: the three blocks in source order over `t = text.strip()`
and `low = t.lower()`. -/
def update_collected (c : Collected) (text : String) : Collected :=
  let t := pyStrip text
  let low := pyLower t
  upd_best_time (upd_phone (upd_name c t low) t) t low

/-- `update_collected_from_text` as the source runs it: mutate the state's
`collected` dict object in place (the state record itself is returned
unchanged by the source). -/
def update_collected_from_text (env : Env) (st : EnvState) (text : String) : Env :=
  setColl env st.collectedRef (update_collected (getColl env st.collectedRef) text)

/-! ### Ticketing -/

/-- `infer_topic` (src/main.py lines 193-212). -/
def infer_topic (st : EnvState) : String :=
  let intent := st.intent
  let proc := st.procedure
  if intent = some "OPENING_HOURS" then "Opening hours"
  else if intent = some "PRICING" ∧ optTruthy proc then pyTitle (proc.getD "") ++ " pricing"
  else if intent = some "INSURANCE" ∧ optTruthy proc then
    "Insurance coverage for " ++ pyTitle (proc.getD "")
  else if intent = some "INSURANCE" then "Insurance question"
  else if intent = some "EMERGENCY" then "Emergency / urgent issue"
  else if intent = some "MEDICAL_ADVICE" then "Medical advice request (needs clinician)"
  else if intent = some "SERVICES" then "Services inquiry"
  else "General inquiry"

/-- `build_summary` (src/main.py lines 215-228).  The Contact line renders
missing slots as Python prints `None`. -/
def build_summary (env : Env) (st : EnvState) : String :=
  let parts : List String := []
  let parts := if optTruthy st.intent then parts ++ ["Intent: " ++ st.intent.getD ""] else parts
  let parts :=
    if optTruthy st.procedure then parts ++ ["Procedure: " ++ st.procedure.getD ""] else parts
  let parts := if optTruthy st.topic then parts ++ ["Topic: " ++ st.topic.getD ""] else parts
  let c := getColl env st.collectedRef
  let parts :=
    if optTruthy c.name || optTruthy c.phone || optTruthy c.best_time then
      parts ++ ["Contact: name=" ++ pyShowOpt c.name ++ ", phone=" ++ pyShowOpt c.phone ++
        ", best_time=" ++ pyShowOpt c.best_time]
    else parts
  let details := getList env st.detailsRef
  let parts :=
    if listTruthy details then parts ++ ["User said: " ++ joinSep " | " (lastN 3 details)]
    else parts
  pyStrip (joinSep "\n" parts)

/-- The `for tid, t in TICKETS.items(): if t.get("session_id") == session_id`
scan of src/main.py lines 236-240: the key of the first ticket for the session. -/
def findSessionKey : List (String × Ticket) → String → Option String
  | [], _ => none
  | p :: rest, sid => if p.2.session_id = sid then some p.1 else findSessionKey rest sid

/-- The ticket dict built at src/main.py lines 247-259.  `created_at` is
`TICKETS.get(ticket_id, {}).get("created_at") or now_iso()`: a stored
timestamp is a non-empty string, hence truthy, so the `or` reduces to the
match below. -/
def newTicket (env : Env) (session_id : String) (st : EnvState) (now : Nat)
    (tid : String) : Ticket :=
  { ticket_id := tid, session_id := session_id,
    created_at := match lookupA env.tickets tid with
      | some t => t.created_at
      | none => now,
    updated_at := now,
    intent := st.intent, procedure := st.procedure,
    topic := pyOr st.topic (infer_topic st),
    summary := build_summary env st,
    contactRef := st.collectedRef,
    conversation_facts := lastN 10 (getList env st.detailsRef),
    status := if st.step ≠ "RESOLVED" then "open" else "closed" }

/-- `upsert_ticket` (src/main.py lines 231-262): find-or-mint the id
(`existing or str(uuid.uuid4())[:8]`, the fresh id supplied by the external
generator), build the ticket, write it back. -/
def upsert_ticket (env : Env) (session_id : String) (st : EnvState) (now : Nat)
    (fresh : String) : String × Env :=
  let ticket_id := pyOr (findSessionKey env.tickets session_id) fresh
  (ticket_id,
    { env with tickets := assocSet env.tickets ticket_id (newTicket env session_id st now ticket_id) })

/-! ### Tools, runner, planner -/

/-- A JSON-ish value inside a result's `data` dict; distinguishing a key
mapped to `None` from an absent key is load-bearing for the `ticket_id`
back-fill in `chat`. -/
inductive Val where
  | str : String → Val
  | boolV : Bool → Val
  | noneV : Val
deriving Repr, DecidableEq

def valOfOptStr : Option String → Val
  | some s => Val.str s
  | none => Val.noneV

/-- A planned action `{type, params}` (planner always passes `params = {}`). -/
structure Action where
  type : String
  params : List (String × Val)
deriving Repr, DecidableEq

/-- One entry of the executed-action log: `{type, ok, data}`. -/
structure Executed where
  type : String
  ok : Bool
  data : List (String × Val)
deriving Repr, DecidableEq

/-- The `ticket_id` keyword argument that `**params` passes to
`Tools.notify_staff` (default `None`). -/
def paramsTicketId (params : List (String × Val)) : Option String :=
  match lookupA params "ticket_id" with
  | some (Val.str s) => some s
  | _ => none

/-- One dispatch step of `AgentRunner.run_actions` (src/main.py lines 292-307)
together with the `Tools` handlers (lines 275-285): `upsert_ticket` returns
`{ok, {ticket_id}}`; `notify_staff` returns `{ok, {notified, ticket_id}}`
with the key `ticket_id` always present (value `None` when no param);
`handoff_if_needed` returns `{ok, {handoff_checked}}`; anything else fails
gracefully. -/
def run_one (env : Env) (session_id : String) (st : EnvState) (a : Action) (now : Nat)
    (fresh : String) : Executed × Env :=
  if a.type = "upsert_ticket" then
    let r := upsert_ticket env session_id st now fresh
    ({ type := a.type, ok := true, data := [("ticket_id", Val.str r.1)] }, r.2)
  else if a.type = "notify_staff" then
    ({ type := a.type, ok := true,
       data := [("notified", Val.boolV true), ("ticket_id", valOfOptStr (paramsTicketId a.params))] },
      env)
  else if a.type = "handoff_if_needed" then
    ({ type := a.type, ok := true, data := [("handoff_checked", Val.boolV true)] }, env)
  else
    ({ type := a.type, ok := false,
       data := [("error", Val.str ("Unknown action type: " ++ a.type))] }, env)

/-- `AgentRunner.run_actions` over the whole batch, threading the stores. -/
def run_actions (env : Env) (session_id : String) (st : EnvState) :
    List Action → Nat → String → List Executed × Env
  | [], _, _ => ([], env)
  | a :: rest, now, fresh =>
    let r := run_one env session_id st a now fresh
    let tail := run_actions r.2 session_id st rest now fresh
    (r.1 :: tail.1, tail.2)

/-- `plan_actions` (src/main.py lines 317-341). -/
def plan_actions (env : Env) (st : EnvState) : List Action :=
  let intent := st.intent
  let proc := st.procedure
  let collected := getColl env st.collectedRef
  let has_contact_signal :=
    optTruthy collected.name || optTruthy collected.phone || optTruthy collected.best_time
  let meaningful :=
    optTruthy intent || optTruthy proc || optTruthy st.topic ||
      listTruthy (getList env st.detailsRef)
  let a1 :=
    if intent ≠ some "OPENING_HOURS" ∧ (meaningful || has_contact_signal) then
      [Action.mk "upsert_ticket" []]
    else []
  let a2 :=
    if intent = some "EMERGENCY" ∨ intent = some "MEDICAL_ADVICE" then
      [Action.mk "notify_staff" [], Action.mk "handoff_if_needed" []]
    else []
  let a3 := if st.step = "READY_TO_HANDOFF" then [Action.mk "notify_staff" []] else []
  a1 ++ a2 ++ a3

/-! ### Reply policy -/

def hoursReply : String :=
  "Our typical opening hours are:\nMonday–Friday: 09:00–18:00\nSaturday: 09:00–13:00\nSunday: Closed\n\nWould you like to book an appointment or request a callback?"

def medicalReply : String :=
  "I can’t safely advise on antibiotics over chat. Antibiotics are only appropriate after a clinician assesses your symptoms and history.\n\nIf you have fever, facial swelling, trouble swallowing/breathing, or severe pain, please seek urgent care.\n\nIf you share your name + phone number, we can arrange a clinician callback."

def emergencyReply : String :=
  "If this is severe pain, swelling, uncontrolled bleeding, or fever, please treat it as urgent and call the clinic right away (or emergency services if needed).\n\nIf you share your name + phone number, we can arrange an urgent callback."

def insuranceNoProcReply : String :=
  "Pricing depends on the service and your insurance coverage. We accept public insurance and private pay (demo).\n\nWhich service are you asking about (e.g., cleaning, filling, implant)?"

def insuranceProcReply (procDisp : String) : String :=
  "Coverage can vary by procedure and plan. For **" ++ procDisp ++ "**, we can confirm after a quick assessment and checking your insurance.\n\nIf you share your name + phone number and best time to reach you, we can arrange a callback with an estimated range."

def pricingNoProcReply : String :=
  "Sure — which treatment are you asking about (e.g., cleaning, filling, implant)?"

def pricingProcReply (procDisp : String) : String :=
  "For **" ++ procDisp ++ "**, pricing depends on clinical assessment and case complexity.\n\nIf you share your **name**, **phone number**, and **best time to call**, we can arrange a callback with an estimated range."

def servicesReply : String :=
  "We offer:\n- Check-ups & consultations\n- Professional cleaning\n- Fillings\n- Root canal treatment (by assessment)\n- Crowns/bridges\n- Implants (by assessment)\n- Kids dentistry\n- Emergency pain consultations\n\nWhat do you need help with?"

def nameQuestion : String := "To arrange a callback, what’s your name?"

def phoneQuestion : String := "Thanks — what’s the best phone number to reach you?"

def bestTimeQuestion : String :=
  "When is the best time to call you (e.g., today afternoon, tomorrow morning)?"

def confirmReply : String :=
  "Perfect — I’ll pass this to the team and they’ll call you at your requested time."

def defaultReply : String :=
  "How can I help you today — is it about opening hours, pricing, insurance, booking, or an urgent issue?"

/-- `next_reply` (src/main.py lines 347-441): the only mutation is to
`state["step"]`, so the result is the updated state record plus the reply.
`user_text` is a parameter of the source that its body never reads. -/
def next_reply (env : Env) (st : EnvState) (user_text : String) : EnvState × String :=
  let intent := st.intent
  let proc := st.procedure
  if intent = some "OPENING_HOURS" then ({ st with step := "TRIAGE" }, hoursReply)
  else if intent = some "MEDICAL_ADVICE" then
    ({ st with step := "LIMITED_RESPONSE" }, medicalReply)
  else if intent = some "EMERGENCY" then ({ st with step := "READY_TO_HANDOFF" }, emergencyReply)
  else if intent = some "INSURANCE" then
    if !optTruthy proc then ({ st with step := "TRIAGE" }, insuranceNoProcReply)
    else ({ st with step := "TRIAGE" }, insuranceProcReply (pyUnderscoreToSpace (proc.getD "")))
  else if intent = some "PRICING" then
    if !optTruthy proc then ({ st with step := "TRIAGE" }, pricingNoProcReply)
    else
      ({ st with step := "COLLECT_CONTACT" }, pricingProcReply (pyUnderscoreToSpace (proc.getD "")))
  else if intent = some "SERVICES" then ({ st with step := "TRIAGE" }, servicesReply)
  else
    let c := getColl env st.collectedRef
    if st.step = "COLLECT_CONTACT" ∨ st.step = "READY_TO_HANDOFF" then
      let missing := ["name", "phone", "best_time"].filter fun k =>
        !optTruthy (if k = "name" then c.name else if k = "phone" then c.phone else c.best_time)
      match missing with
      | field :: _ =>
        if field = "name" then (st, nameQuestion)
        else if field = "phone" then (st, phoneQuestion)
        else (st, bestTimeQuestion)
      | [] => ({ st with step := "READY_TO_HANDOFF" }, confirmReply)
    else ({ st with step := "TRIAGE" }, defaultReply)

/-! ### The chat endpoint -/

/-- What `ChatResponse` echoes back to the caller. -/
structure ChatOut where
  reply_text : String
  state : EnvState
  actions_executed : List Executed
  ticket_id : Option String
deriving Repr, DecidableEq

/-- The `ticket_id` pull of src/main.py lines 494-497: the loop keeps the
`data.get("ticket_id")` of the last successful `upsert_ticket` entry. -/
def pullTicketId (executed : List Executed) : Option String :=
  executed.foldl
    (fun acc e =>
      if e.type = "upsert_ticket" ∧ e.ok then
        match lookupA e.data "ticket_id" with
        | some (Val.str s) => some s
        | _ => none
      else acc)
    none

/-- The back-fill loop of src/main.py lines 500-502: attach `ticket_id` to a
successful `notify_staff` entry only when the key is absent from its data. -/
def backfillNotify (executed : List Executed) (tid : Option String) : List Executed :=
  executed.map fun e =>
    if e.type = "notify_staff" ∧ e.ok = true ∧ optTruthy tid = true ∧ hasKey e.data "ticket_id" = false
    then { e with data := e.data ++ [("ticket_id", Val.str (tid.getD ""))] }
    else e

/-- `chat` (src/main.py lines 462-513), one full turn: load-or-init state,
append the stripped message to the `details` list object, merge the NLU
result (only truthy results overwrite), recompute the topic, extract contact
slots into the `collected` dict object, produce the reply (which may move
`step`), plan and execute actions, pull and back-fill the ticket id, save. -/
def chat (env : Env) (session_id user_message : String) (prior_state : Option EnvState)
    (now : Nat) (fresh : String) : Env × ChatOut :=
  let st := get_or_init_state session_id prior_state env now
  let msg := pyStrip user_message
  let env := if strTruthy msg then setList env st.detailsRef (getList env st.detailsRef ++ [msg])
    else env
  let nlu := classify_intent_and_procedure msg
  let st := if optTruthy nlu.intent then { st with intent := nlu.intent } else st
  let st := if optTruthy nlu.procedure then { st with procedure := nlu.procedure } else st
  let st := { st with topic := some (infer_topic st) }
  let env := update_collected_from_text env st msg
  let r := next_reply env st msg
  let st := r.1
  let reply_text := r.2
  let planned := plan_actions env st
  let ex := run_actions env session_id st planned now fresh
  let ticket_id := pullTicketId ex.1
  let executed := backfillNotify ex.1 ticket_id
  let env := save_state session_id st ex.2 now
  (env, { reply_text := reply_text, state := st, actions_executed := executed,
          ticket_id := ticket_id })

/-! ### Spec-side definitions (refinement targets, written from the spec's words) -/

/-- The spec's ordered intent rule list (spec section 4.1): tag plus keyword
set, highest priority first. -/
def intentRules : List (String × List String) :=
  [("MEDICAL_ADVICE", ["antibiotic", "antibiotics", "amoxicillin", "penicillin"]),
   ("EMERGENCY", ["emergency", "severe pain", "unbearable pain", "bleeding", "swollen",
      "swelling", "urgent"]),
   ("BOOK_APPOINTMENT", ["book", "booking", "appointment", "make an appointment", "schedule",
      "set an appointment"]),
   ("OPENING_HOURS", ["opening hours", "open hours", "working hours", "business hours",
      "when are you open", "when do you open", "when do you close",
      "opening time", "closing time", "hours"]),
   ("INSURANCE", ["insurance", "public insurance", "private pay", "private insurance",
      "coverage", "insured"]),
   ("PRICING", ["price", "cost", "how much", "pricing", "fee", "rates", "quote"]),
   ("SERVICES", ["do you offer", "services", "what do you do", "offer", "treatments",
      "procedures"])]

/-- First-match-wins evaluation of an ordered keyword rule list, as the spec
describes the classifier: return the tag of the first rule whose keyword set
has a substring match. -/
def firstMatch : List (String × List String) → String → Option String
  | [], _ => none
  | r :: rest, t => if anyKw r.2 t then some r.1 else firstMatch rest t

/-- The antibiotic-related keyword set of the highest-priority rule. -/
def antibioticKeywords : List String := ["antibiotic", "antibiotics", "amoxicillin", "penicillin"]

/-- The best-time keyword set of the contact extractor (spec section 4.3). -/
def bestTimeKeywords : List String :=
  ["morning", "afternoon", "evening", "tomorrow", "today",
   "monday", "tuesday", "wednesday", "thursday", "friday", "saturday", "sunday"]

/-- The topic mapping as a function of `(intent, procedure)` alone, written
from the spec's first-match-wins table as amended by the code: the procedure
is interpolated in Python `str.title()` form, and BOOK_APPOINTMENT (absent
from the code's table) falls to the final "General inquiry" case. -/
def infer_topic_spec (intent proc : Option String) : String :=
  if intent = some "OPENING_HOURS" then "Opening hours"
  else if intent = some "PRICING" ∧ optTruthy proc then pyTitle (proc.getD "") ++ " pricing"
  else if intent = some "INSURANCE" ∧ optTruthy proc then
    "Insurance coverage for " ++ pyTitle (proc.getD "")
  else if intent = some "INSURANCE" then "Insurance question"
  else if intent = some "EMERGENCY" then "Emergency / urgent issue"
  else if intent = some "MEDICAL_ADVICE" then "Medical advice request (needs clinician)"
  else if intent = some "SERVICES" then "Services inquiry"
  else "General inquiry"

/-! ### Claim C2: intent classification is first-match over the ordered rule list -/

/-- Claim C2: for every utterance, intent classification equals first-match
evaluation of the ordered rule list MEDICAL_ADVICE, EMERGENCY,
BOOK_APPOINTMENT, OPENING_HOURS, INSURANCE, PRICING, SERVICES over the
lowercased trimmed text; in particular any text containing an
antibiotic-related keyword classifies as MEDICAL_ADVICE regardless of
co-occurring keywords. -/
theorem C2_intent_first_match (text : String) :
    (classify_intent_and_procedure text).intent = firstMatch intentRules (pyStrip (pyLower text)) ∧
    (anyKw antibioticKeywords (pyStrip (pyLower text)) = true →
      (classify_intent_and_procedure text).intent = some "MEDICAL_ADVICE") := by
  have h1 : (classify_intent_and_procedure text).intent =
      firstMatch intentRules (pyStrip (pyLower text)) := rfl
  refine ⟨h1, fun h => ?_⟩
  rw [h1]
  simp only [intentRules, firstMatch]
  rw [show anyKw ["antibiotic", "antibiotics", "amoxicillin", "penicillin"]
      (pyStrip (pyLower text)) = true from h]
  simp

/-- Witness for C2 at a concrete utterance mixing antibiotic and booking
keywords. -/
theorem C2_intent_first_match_witness :
    (classify_intent_and_procedure "i want to book an appointment and i need antibiotics").intent =
      some "MEDICAL_ADVICE" :=
  (C2_intent_first_match "i want to book an appointment and i need antibiotics").2 (by decide)

/-! ### Claim C1: the BOOK_APPOINTMENT turn of the state machine -/

/-- Counterexample to claim C1 as stated: a turn classified BOOK_APPOINTMENT
from a fresh TRIAGE state leaves `step` at TRIAGE with the generic prompt —
it does not move to COLLECT_CONTACT. -/
theorem C1_counterexample :
    (classify_intent_and_procedure "i want to book an appointment").intent =
      some "BOOK_APPOINTMENT" ∧
    (chat initEnv "s" "i want to book an appointment" none 1 "t1").2.state.intent =
      some "BOOK_APPOINTMENT" ∧
    (chat initEnv "s" "i want to book an appointment" none 1 "t1").2.state.step = "TRIAGE" ∧
    (chat initEnv "s" "i want to book an appointment" none 1 "t1").2.reply_text = defaultReply ∧
    "TRIAGE" ≠ "COLLECT_CONTACT" := by
  decide

/-- Claim C1 as amended: `next_reply` has no BOOK_APPOINTMENT branch, so with
intent BOOK_APPOINTMENT the machine falls to the step-based fallback: when
the step is already COLLECT_CONTACT or READY_TO_HANDOFF it asks for the
first missing slot in the fixed order name, phone, best_time (leaving the
step unchanged) and, once all three slots are present, moves to
READY_TO_HANDOFF with the confirmation reply; from any other step it sets
step to TRIAGE and returns the generic prompt, never COLLECT_CONTACT. -/
theorem C1_book_appointment_fallback (env : Env) (st : EnvState) (msg : String)
    (h : st.intent = some "BOOK_APPOINTMENT") :
    ((st.step = "COLLECT_CONTACT" ∨ st.step = "READY_TO_HANDOFF") →
      (optTruthy (getColl env st.collectedRef).name = false →
        next_reply env st msg = (st, nameQuestion)) ∧
      (optTruthy (getColl env st.collectedRef).name = true →
        optTruthy (getColl env st.collectedRef).phone = false →
        next_reply env st msg = (st, phoneQuestion)) ∧
      (optTruthy (getColl env st.collectedRef).name = true →
        optTruthy (getColl env st.collectedRef).phone = true →
        optTruthy (getColl env st.collectedRef).best_time = false →
        next_reply env st msg = (st, bestTimeQuestion)) ∧
      (optTruthy (getColl env st.collectedRef).name = true →
        optTruthy (getColl env st.collectedRef).phone = true →
        optTruthy (getColl env st.collectedRef).best_time = true →
        next_reply env st msg = ({ st with step := "READY_TO_HANDOFF" }, confirmReply))) ∧
    (st.step ≠ "COLLECT_CONTACT" → st.step ≠ "READY_TO_HANDOFF" →
      next_reply env st msg = ({ st with step := "TRIAGE" }, defaultReply)) := by
  constructor
  · intro hstep
    rcases hstep with h1 | h1 <;>
      refine ⟨fun hn => ?_, fun hn hp => ?_, fun hn hp hb => ?_, fun hn hp hb => ?_⟩ <;>
      simp_all [next_reply, List.filter]
  · intro h1 h2
    have hno : ¬(st.step = "COLLECT_CONTACT" ∨ st.step = "READY_TO_HANDOFF") := by
      rintro (hh | hh)
      · exact h1 hh
      · exact h2 hh
    simp [next_reply, h, hno]

/-- Witness for the amended C1 at a concrete collecting state with all slots
missing: the machine asks for the name first. -/
theorem C1_book_appointment_fallback_witness :
    next_reply initEnv
        { DEFAULT_STATE with step := "COLLECT_CONTACT", intent := some "BOOK_APPOINTMENT" } "ok" =
      ({ DEFAULT_STATE with step := "COLLECT_CONTACT", intent := some "BOOK_APPOINTMENT" },
        nameQuestion) :=
  ((C1_book_appointment_fallback initEnv
      { DEFAULT_STATE with step := "COLLECT_CONTACT", intent := some "BOOK_APPOINTMENT" } "ok"
      rfl).1 (Or.inl rfl)).1 rfl

/-! ### Claim C3: the notify_staff ticket-id thread/back-fill -/

/-- Claim C3, evaluated at the failing input (fresh session "s1", message
"this is an emergency"): the log does contain `notify_staff` and
`handoff_if_needed` results and the `upsert_ticket` result succeeded with id
"tick1", but every `notify_staff` result's data maps `ticket_id` to `None` —
the key is always present, so the back-fill guard
`"ticket_id" not in e["data"]` never fires and the claimed threading fails. -/
theorem C3_notify_ticket_id_never_backfilled :
    ((chat initEnv "s1" "this is an emergency" none 1 "tick1").2.actions_executed.map
        Executed.type =
      ["upsert_ticket", "notify_staff", "handoff_if_needed", "notify_staff"]) ∧
    (chat initEnv "s1" "this is an emergency" none 1 "tick1").2.ticket_id = some "tick1" ∧
    (((chat initEnv "s1" "this is an emergency" none 1 "tick1").2.actions_executed.getD 0
        ⟨"", false, []⟩).data = [("ticket_id", Val.str "tick1")]) ∧
    (((chat initEnv "s1" "this is an emergency" none 1 "tick1").2.actions_executed.filter
        (fun e => e.type == "notify_staff")).all
      (fun e => lookupA e.data "ticket_id" == some Val.noneV)) = true := by
  decide

/-! ### Claim C4: no bare-name acceptance in the contact extractor -/

/-- Counterexample to claim C4 as stated: in a COLLECT_CONTACT state with no
name, the bare-name utterance "Monday" (letters only, within 1-60
characters, not an acknowledgement word) is not accepted as the name, and
extraction continues — it lands in `best_time` instead. -/
theorem C4_counterexample :
    validName "Monday" = true ∧
    ("Monday" ≠ "yes" ∧ "Monday" ≠ "ok" ∧ "Monday" ≠ "thanks") ∧
    (getColl
        (update_collected_from_text initEnv
          { DEFAULT_STATE with step := "COLLECT_CONTACT" } "Monday")
        DEFAULT_STATE.collectedRef).name = none ∧
    (getColl
        (update_collected_from_text initEnv
          { DEFAULT_STATE with step := "COLLECT_CONTACT" } "Monday")
        DEFAULT_STATE.collectedRef).best_time = some "Monday" := by
  decide

/-- Overwriting a heap cell and reading it back. -/
theorem listSetGetD {α : Type} : ∀ (l : List α) (i : Nat) (v d : α), i < l.length →
    (l.set i v).getD i d = v
  | _ :: _, 0, _, _, _ => rfl
  | _ :: l, i + 1, v, d, h => listSetGetD l i v d (Nat.lt_of_succ_lt_succ h)

/-- Reading the `collected` cell just written. -/
theorem getColl_setColl_self (env : Env) (r : Nat) (v : Collected)
    (h : r < env.collHeap.length) : getColl (setColl env r v) r = v := by
  simpa [getColl, setColl] using listSetGetD env.collHeap r v ⟨none, none, none⟩ h

/-- The name block never touches the phone slot. -/
theorem upd_name_phone (c : Collected) (t low : String) : (upd_name c t low).phone = c.phone := by
  simp only [upd_name]
  repeat' split
  all_goals rfl

/-- The name block never touches the best-time slot. -/
theorem upd_name_best_time (c : Collected) (t low : String) :
    (upd_name c t low).best_time = c.best_time := by
  simp only [upd_name]
  repeat' split
  all_goals rfl

/-- The name block is guarded by `name is None`: a set name is kept. -/
theorem upd_name_keeps_some (c : Collected) (t low : String) (v : String)
    (h : c.name = some v) : upd_name c t low = c := by
  simp [upd_name, h]

/-- Without a trigger phrase the name block does nothing. -/
theorem upd_name_of_no_trigger (c : Collected) (t low : String)
    (h1 : isSub "my name is" low = false) (h2 : isSub "i am " low = false) :
    upd_name c t low = c := by
  simp [upd_name, h1, h2]

/-- The phone block never touches the name slot. -/
theorem upd_phone_name (c : Collected) (t : String) : (upd_phone c t).name = c.name := by
  simp only [upd_phone]
  repeat' split
  all_goals rfl

/-- The phone block never touches the best-time slot. -/
theorem upd_phone_best_time (c : Collected) (t : String) :
    (upd_phone c t).best_time = c.best_time := by
  simp only [upd_phone]
  repeat' split
  all_goals rfl

/-- The phone block is guarded by `phone is None`: a set phone is kept. -/
theorem upd_phone_keeps_some (c : Collected) (t : String) (v : String)
    (h : c.phone = some v) : upd_phone c t = c := by
  simp [upd_phone, h]

/-- The best-time block never touches the name slot. -/
theorem upd_best_time_name (c : Collected) (t low : String) :
    (upd_best_time c t low).name = c.name := by
  simp only [upd_best_time]
  repeat' split
  all_goals rfl

/-- The best-time block never touches the phone slot. -/
theorem upd_best_time_phone (c : Collected) (t low : String) :
    (upd_best_time c t low).phone = c.phone := by
  simp only [upd_best_time]
  repeat' split
  all_goals rfl

/-- The best-time block is guarded by `best_time is None`: a set slot is kept. -/
theorem upd_best_time_keeps_some (c : Collected) (t low : String) (v : String)
    (h : c.best_time = some v) : upd_best_time c t low = c := by
  simp [upd_best_time, h]

/-- A best-time keyword fills an unset `best_time` slot with the stripped text. -/
theorem upd_best_time_sets (c : Collected) (t low : String)
    (hb : c.best_time = none) (hkw : anyKw bestTimeKeywords low = true) :
    (upd_best_time c t low).best_time = some (pyStrip t) := by
  have hkw' : anyKw ["morning", "afternoon", "evening", "tomorrow", "today",
      "monday", "tuesday", "wednesday", "thursday", "friday", "saturday", "sunday"]
      low = true := hkw
  simp [upd_best_time, hb, hkw']

/-- Without a name-phrase trigger the extractor leaves an unset name unset. -/
theorem update_collected_name_of_no_trigger (c : Collected) (text : String)
    (hn : c.name = none)
    (h1 : isSub "my name is" (pyLower (pyStrip text)) = false)
    (h2 : isSub "i am " (pyLower (pyStrip text)) = false) :
    (update_collected c text).name = none := by
  simp only [update_collected]
  rw [upd_best_time_name, upd_phone_name, upd_name_of_no_trigger c _ _ h1 h2, hn]

/-- A best-time keyword fills an unset `best_time` slot with the stripped
text, whatever happened to the other slots this turn. -/
theorem update_collected_best_time_set (c : Collected) (text : String)
    (hb : c.best_time = none)
    (hkw : anyKw bestTimeKeywords (pyLower (pyStrip text)) = true) :
    (update_collected c text).best_time = some (pyStrip (pyStrip text)) := by
  simp only [update_collected]
  apply upd_best_time_sets _ _ _ _ hkw
  rw [upd_phone_best_time, upd_name_best_time, hb]

/-- Claim C4 as amended: the extractor has no bare-name branch.  With `step ==
COLLECT_CONTACT` and `name` unset, when neither trigger phrase "my name is"
nor "i am " occurs in the lowercased text — in particular for any bare-name
utterance — the name slot stays unset, and extraction continues: a best-time
keyword still fills `best_time` with the trimmed text. -/
theorem C4_no_bare_name_branch (env : Env) (st : EnvState) (text : String)
    (hstep : st.step = "COLLECT_CONTACT")
    (href : st.collectedRef < env.collHeap.length)
    (hn : (getColl env st.collectedRef).name = none)
    (h1 : isSub "my name is" (pyLower (pyStrip text)) = false)
    (h2 : isSub "i am " (pyLower (pyStrip text)) = false) :
    (getColl (update_collected_from_text env st text) st.collectedRef).name = none ∧
    ((getColl env st.collectedRef).best_time = none →
      anyKw bestTimeKeywords (pyLower (pyStrip text)) = true →
      (getColl (update_collected_from_text env st text) st.collectedRef).best_time =
        some (pyStrip (pyStrip text))) := by
  have hw : getColl (update_collected_from_text env st text) st.collectedRef =
      update_collected (getColl env st.collectedRef) text := by
    simp only [update_collected_from_text]
    exact getColl_setColl_self env st.collectedRef _ href
  rw [hw]
  exact ⟨update_collected_name_of_no_trigger _ _ hn h1 h2,
    fun hb hkw => update_collected_best_time_set _ _ hb hkw⟩

/-- Witness for the amended C4: in a fresh COLLECT_CONTACT state the bare
utterance "tomorrow morning" leaves `name` unset and becomes `best_time`. -/
theorem C4_no_bare_name_branch_witness :
    (getColl
        (update_collected_from_text initEnv
          { DEFAULT_STATE with step := "COLLECT_CONTACT" } "tomorrow morning")
        DEFAULT_STATE.collectedRef).name = none ∧
    (getColl
        (update_collected_from_text initEnv
          { DEFAULT_STATE with step := "COLLECT_CONTACT" } "tomorrow morning")
        DEFAULT_STATE.collectedRef).best_time = some (pyStrip (pyStrip "tomorrow morning")) :=
  ⟨(C4_no_bare_name_branch initEnv { DEFAULT_STATE with step := "COLLECT_CONTACT" }
      "tomorrow morning" rfl (by decide) rfl (by decide) (by decide)).1,
   (C4_no_bare_name_branch initEnv { DEFAULT_STATE with step := "COLLECT_CONTACT" }
      "tomorrow morning" rfl (by decide) rfl (by decide) (by decide)).2 rfl (by decide)⟩

/-! ### Claim C5: the topic mapping -/

/-- Counterexample to claim C5 as stated: `infer_topic` has no
BOOK_APPOINTMENT case (that intent falls to "General inquiry", not
"Appointment booking"), and the procedure is interpolated title-cased
("Implant pricing", not "implant pricing"). -/
theorem C5_counterexample :
    infer_topic { DEFAULT_STATE with intent := some "BOOK_APPOINTMENT" } = "General inquiry" ∧
    infer_topic { DEFAULT_STATE with intent := some "BOOK_APPOINTMENT" } ≠ "Appointment booking" ∧
    infer_topic { DEFAULT_STATE with intent := some "PRICING", procedure := some "implant" } =
      "Implant pricing" ∧
    infer_topic { DEFAULT_STATE with intent := some "PRICING", procedure := some "implant" } ≠
      "implant pricing" := by
  decide

/-- Claim C5 as amended: topic inference is exactly the first-match mapping
`infer_topic_spec` of `(intent, procedure)` alone — OPENING_HOURS, PRICING
with a title-cased procedure, INSURANCE with/without a procedure, EMERGENCY,
MEDICAL_ADVICE, SERVICES, and a final "General inquiry" case that also
catches BOOK_APPOINTMENT — and it depends on no other part of the state. -/
theorem C5_topic_pure_mapping :
    (∀ st : EnvState, infer_topic st = infer_topic_spec st.intent st.procedure) ∧
    (∀ s1 s2 : EnvState, s1.intent = s2.intent → s1.procedure = s2.procedure →
      infer_topic s1 = infer_topic s2) := by
  refine ⟨fun st => rfl, fun s1 s2 hi hp => ?_⟩
  simp only [infer_topic]
  rw [hi, hp]

/-- Witness for the amended C5: two states agreeing on intent and procedure
but differing in step, topic, details and slots get the same topic. -/
theorem C5_topic_pure_mapping_witness :
    infer_topic { DEFAULT_STATE with intent := some "EMERGENCY" } =
      infer_topic { DEFAULT_STATE with
        intent := some "EMERGENCY"
        step := "RESOLVED"
        topic := some "x"
        detailsRef := 5
        collectedRef := 7 } :=
  C5_topic_pure_mapping.2 _ _ rfl rfl

/-- Single turn: the extractor never overwrites a set name. -/
theorem update_collected_keeps_name (c : Collected) (text : String) (v : String)
    (h : c.name = some v) : (update_collected c text).name = some v := by
  simp only [update_collected]
  rw [upd_best_time_name, upd_phone_name, upd_name_keeps_some c _ _ v h, h]

/-- Single turn: the extractor never overwrites a set phone. -/
theorem update_collected_keeps_phone (c : Collected) (text : String) (v : String)
    (h : c.phone = some v) : (update_collected c text).phone = some v := by
  simp only [update_collected]
  rw [upd_best_time_phone]
  have hx : (upd_name c (pyStrip text) (pyLower (pyStrip text))).phone = some v := by
    rw [upd_name_phone, h]
  rw [upd_phone_keeps_some _ _ v hx, hx]

/-- Single turn: the extractor never overwrites a set best time. -/
theorem update_collected_keeps_best_time (c : Collected) (text : String) (v : String)
    (h : c.best_time = some v) : (update_collected c text).best_time = some v := by
  simp only [update_collected]
  have hx : (upd_phone (upd_name c (pyStrip text) (pyLower (pyStrip text)))
      (pyStrip text)).best_time = some v := by
    rw [upd_phone_best_time, upd_name_best_time, h]
  rw [upd_best_time_keeps_some _ _ _ v hx, hx]

/-! ### Claim C6: slots are write-once -/

/-- Claim C6: for every contact slot, once it holds a value, no sequence of
later extraction turns changes it — each of the three guards `... is None`
makes every slot write-once for the conversation, whatever the later
utterances contain. -/
theorem C6_slots_write_once (c : Collected) (texts : List String) :
    (∀ v, c.name = some v → (texts.foldl update_collected c).name = some v) ∧
    (∀ v, c.phone = some v → (texts.foldl update_collected c).phone = some v) ∧
    (∀ v, c.best_time = some v → (texts.foldl update_collected c).best_time = some v) := by
  induction texts generalizing c with
  | nil => exact ⟨fun v h => h, fun v h => h, fun v h => h⟩
  | cons t rest ih =>
    refine ⟨fun v h => ?_, fun v h => ?_, fun v h => ?_⟩
    · exact (ih (update_collected c t)).1 v (update_collected_keeps_name c t v h)
    · exact (ih (update_collected c t)).2.1 v (update_collected_keeps_phone c t v h)
    · exact (ih (update_collected c t)).2.2 v (update_collected_keeps_best_time c t v h)

/-- Witness for C6: a fully filled record survives two turns containing new
valid candidates for every slot. -/
theorem C6_slots_write_once_witness :
    ((["my name is Bob", "87654321 on monday"].foldl update_collected
        ⟨some "Ali", some "+4912345678", some "tomorrow"⟩).name = some "Ali") ∧
    ((["my name is Bob", "87654321 on monday"].foldl update_collected
        ⟨some "Ali", some "+4912345678", some "tomorrow"⟩).phone = some "+4912345678") ∧
    ((["my name is Bob", "87654321 on monday"].foldl update_collected
        ⟨some "Ali", some "+4912345678", some "tomorrow"⟩).best_time = some "tomorrow") :=
  ⟨(C6_slots_write_once ⟨some "Ali", some "+4912345678", some "tomorrow"⟩
      ["my name is Bob", "87654321 on monday"]).1 "Ali" rfl,
   (C6_slots_write_once ⟨some "Ali", some "+4912345678", some "tomorrow"⟩
      ["my name is Bob", "87654321 on monday"]).2.1 "+4912345678" rfl,
   (C6_slots_write_once ⟨some "Ali", some "+4912345678", some "tomorrow"⟩
      ["my name is Bob", "87654321 on monday"]).2.2 "tomorrow" rfl⟩

/-! ### Claim C9: a none classification never clears stored values -/

/-- The reply policy only ever writes `step`: the intent field survives. -/
theorem next_reply_state_intent (env : Env) (st : EnvState) (msg : String) :
    (next_reply env st msg).1.intent = st.intent := by
  simp only [next_reply]
  repeat' split
  all_goals rfl

/-- The reply policy only ever writes `step`: the procedure field survives. -/
theorem next_reply_state_procedure (env : Env) (st : EnvState) (msg : String) :
    (next_reply env st msg).1.procedure = st.procedure := by
  simp only [next_reply]
  repeat' split
  all_goals rfl

/-- Claim C9: on a turn where the classifier detects no intent, the state's
previously recorded intent is retained unchanged (and likewise the stored
procedure when no procedure is detected) — only a truthy NLU result
overwrites. -/
theorem C9_none_never_clears (env : Env) (sid msg : String) (prior : Option EnvState)
    (now : Nat) (fresh : String) :
    ((classify_intent_and_procedure (pyStrip msg)).intent = none →
      (chat env sid msg prior now fresh).2.state.intent =
        (get_or_init_state sid prior env now).intent) ∧
    ((classify_intent_and_procedure (pyStrip msg)).procedure = none →
      (chat env sid msg prior now fresh).2.state.procedure =
        (get_or_init_state sid prior env now).procedure) := by
  constructor
  · intro h
    simp only [chat, next_reply_state_intent]
    rw [h]
    simp only [optTruthy, Bool.false_eq_true, if_false]
    split <;> rfl
  · intro h
    simp only [chat, next_reply_state_procedure]
    rw [h]
    simp only [optTruthy, Bool.false_eq_true, if_false]
    split <;> rfl

/-- Witness for C9: a stored PRICING intent and cleaning procedure survive a
turn with the unclassifiable message "hello please help". -/
theorem C9_none_never_clears_witness :
    ((chat { initEnv with
        sessions := [("s", { DEFAULT_STATE with
          intent := some "PRICING"
          procedure := some "cleaning" })] } "s" "hello please help" none 5 "t").2.state.intent =
      (get_or_init_state "s" none { initEnv with
        sessions := [("s", { DEFAULT_STATE with
          intent := some "PRICING"
          procedure := some "cleaning" })] } 5).intent) ∧
    ((chat { initEnv with
        sessions := [("s", { DEFAULT_STATE with
          intent := some "PRICING"
          procedure := some "cleaning" })] } "s" "hello please help" none 5 "t").2.state.procedure =
      (get_or_init_state "s" none { initEnv with
        sessions := [("s", { DEFAULT_STATE with
          intent := some "PRICING"
          procedure := some "cleaning" })] } 5).procedure) :=
  ⟨(C9_none_never_clears { initEnv with
      sessions := [("s", { DEFAULT_STATE with
        intent := some "PRICING"
        procedure := some "cleaning" })] } "s" "hello please help" none 5 "t").1 (by decide),
   (C9_none_never_clears { initEnv with
      sessions := [("s", { DEFAULT_STATE with
        intent := some "PRICING"
        procedure := some "cleaning" })] } "s" "hello please help" none 5 "t").2 (by decide)⟩

/-! ### Claim C8: when the planner emits upsert_ticket -/

/-- Membership of the ticket action in the planner's output, phrased with the
planner's own boolean condition. -/
theorem mem_plan_upsert (env : Env) (st : EnvState) :
    (Action.mk "upsert_ticket" [] ∈ plan_actions env st) ↔
      (st.intent ≠ some "OPENING_HOURS" ∧
        ((optTruthy st.intent || optTruthy st.procedure || optTruthy st.topic ||
            listTruthy (getList env st.detailsRef)) ||
          (optTruthy (getColl env st.collectedRef).name ||
            optTruthy (getColl env st.collectedRef).phone ||
            optTruthy (getColl env st.collectedRef).best_time)) = true) := by
  simp only [plan_actions]
  split_ifs <;> simp_all [Action.mk.injEq]

/-- Claim C8: the planner emits `upsert_ticket` exactly when the intent is
not OPENING_HOURS and the state is meaningful (a set intent, procedure or
topic, or non-empty details) or some contact slot is filled; in particular a
session whose only turn is an opening-hours question executes no action at
all, produces zero tickets, and replies with the fixed hours text. -/
theorem C8_plan_upsert_iff :
    (∀ (env : Env) (st : EnvState),
      (Action.mk "upsert_ticket" [] ∈ plan_actions env st) ↔
        (st.intent ≠ some "OPENING_HOURS" ∧
          (optTruthy st.intent = true ∨ optTruthy st.procedure = true ∨
            optTruthy st.topic = true ∨ listTruthy (getList env st.detailsRef) = true ∨
            optTruthy (getColl env st.collectedRef).name = true ∨
            optTruthy (getColl env st.collectedRef).phone = true ∨
            optTruthy (getColl env st.collectedRef).best_time = true))) ∧
    ((chat initEnv "s1" "what are your opening hours" none 1 "t1").2.actions_executed = [] ∧
      (chat initEnv "s1" "what are your opening hours" none 1 "t1").1.tickets = [] ∧
      (chat initEnv "s1" "what are your opening hours" none 1 "t1").2.reply_text = hoursReply ∧
      isSub hoursReply
        (chat initEnv "s1" "what are your opening hours" none 1 "t1").2.reply_text = true) := by
  constructor
  · intro env st
    rw [mem_plan_upsert env st]
    constructor
    · rintro ⟨h1, h2⟩
      refine ⟨h1, ?_⟩
      simp only [Bool.or_eq_true] at h2
      tauto
    · rintro ⟨h1, h2⟩
      refine ⟨h1, ?_⟩
      simp only [Bool.or_eq_true]
      tauto
  · decide

/-- Witness for C8: a state whose only signal is a PRICING intent gets a
ticket action. -/
theorem C8_plan_upsert_iff_witness :
    Action.mk "upsert_ticket" [] ∈
      plan_actions initEnv { DEFAULT_STATE with intent := some "PRICING" } :=
  (C8_plan_upsert_iff.1 initEnv { DEFAULT_STATE with intent := some "PRICING" }).mpr
    ⟨by decide, Or.inl (by decide)⟩

/-! ### Claim C7: repeated upserts are stable -/

/-- Looking up a key that exists and was replaced in place. -/
theorem lookupA_map_replace {α : Type} (l : List (String × α)) (k : String) (v : α)
    (h : hasKey l k = true) :
    lookupA (l.map fun p => if p.1 = k then (k, v) else p) k = some v := by
  induction l with
  | nil => simp [hasKey] at h
  | cons p rest ih =>
    by_cases hp : p.1 = k
    · simp [lookupA, hp]
    · have h' : hasKey rest k = true := by simpa [hasKey, hp] using h
      simpa [lookupA, hp] using ih h'

/-- Looking up a freshly appended key. -/
theorem lookupA_append_new {α : Type} (l : List (String × α)) (k : String) (v : α)
    (h : hasKey l k = false) :
    lookupA (l ++ [(k, v)]) k = some v := by
  induction l with
  | nil => simp [lookupA]
  | cons p rest ih =>
    have hp : ¬(p.1 = k) := by
      intro hh
      simp [hasKey, hh] at h
    have h' : hasKey rest k = false := by simpa [hasKey, hp] using h
    simpa [lookupA, hp] using ih h'

/-- A dict write is immediately readable. -/
theorem lookupA_assocSet_self {α : Type} (l : List (String × α)) (k : String) (v : α) :
    lookupA (assocSet l k v) k = some v := by
  by_cases h : hasKey l k = true
  · simp only [assocSet, h, if_true]
    exact lookupA_map_replace l k v h
  · have h' : hasKey l k = false := by simpa using h
    simp only [assocSet, h', Bool.false_eq_true, if_false]
    exact lookupA_append_new l k v h'

/-- The first-ticket-for-session scan returns an existing key. -/
theorem findSessionKey_mem (l : List (String × Ticket)) (sid e : String)
    (h : findSessionKey l sid = some e) : ∃ t, (e, t) ∈ l := by
  induction l with
  | nil => simp [findSessionKey] at h
  | cons p rest ih =>
    by_cases hp : p.2.session_id = sid
    · have he : p.1 = e := by simpa [findSessionKey, hp] using h
      exact ⟨p.2, by simp [← he]⟩
    · have h' : findSessionKey rest sid = some e := by simpa [findSessionKey, hp] using h
      obtain ⟨t, ht⟩ := ih h'
      exact ⟨t, List.mem_cons_of_mem _ ht⟩

/-- A present pair makes its key present. -/
theorem hasKey_of_mem {α : Type} (l : List (String × α)) (e : String) (t : α)
    (h : (e, t) ∈ l) : hasKey l e = true := by
  induction l with
  | nil => simp at h
  | cons p rest ih =>
    rcases List.mem_cons.mp h with h1 | h1
    · simp [hasKey, ← h1]
    · by_cases hp : p.1 = e
      · simp [hasKey, hp]
      · simpa [hasKey, hp] using ih h1

/-- Replacing key `k` with a ticket for `sid` in a store with no ticket for
`sid`: the scan finds exactly the replaced key, when present. -/
theorem findSessionKey_map_replace (l : List (String × Ticket)) (k sid : String) (v : Ticket)
    (hv : v.session_id = sid) (hnone : findSessionKey l sid = none) :
    findSessionKey (l.map fun p => if p.1 = k then (k, v) else p) sid =
      if hasKey l k then some k else none := by
  induction l with
  | nil => simp [findSessionKey, hasKey]
  | cons p rest ih =>
    have hps : ¬(p.2.session_id = sid) := by
      intro hh
      simp [findSessionKey, hh] at hnone
    have hrest : findSessionKey rest sid = none := by
      simpa [findSessionKey, hps] using hnone
    by_cases hp : p.1 = k
    · simp [findSessionKey, hasKey, hp, hv]
    · simp [findSessionKey, hasKey, hp, hps, ih hrest]

/-- Appending a ticket for `sid` to a store with no ticket for `sid`: the
scan finds the appended key. -/
theorem findSessionKey_append_new (l : List (String × Ticket)) (k sid : String) (v : Ticket)
    (hv : v.session_id = sid) (hnone : findSessionKey l sid = none) :
    findSessionKey (l ++ [(k, v)]) sid = some k := by
  induction l with
  | nil => simp [findSessionKey, hv]
  | cons p rest ih =>
    have hps : ¬(p.2.session_id = sid) := by
      intro hh
      simp [findSessionKey, hh] at hnone
    have hrest : findSessionKey rest sid = none := by
      simpa [findSessionKey, hps] using hnone
    simpa [findSessionKey, hps] using ih hrest

/-- Replacing the key the scan already returns keeps the scan's answer. -/
theorem findSessionKey_map_replace_existing (l : List (String × Ticket)) (e sid : String)
    (v : Ticket) (hv : v.session_id = sid) (h : findSessionKey l sid = some e) :
    findSessionKey (l.map fun p => if p.1 = e then (e, v) else p) sid = some e := by
  induction l with
  | nil => simp [findSessionKey] at h
  | cons p rest ih =>
    by_cases hp : p.1 = e
    · simp [findSessionKey, hp, hv]
    · by_cases hps : p.2.session_id = sid
      · exact absurd (by simpa [findSessionKey, hps] using h) hp
      · have hrest : findSessionKey rest sid = some e := by
          simpa [findSessionKey, hps] using h
        simpa [findSessionKey, hp, hps] using ih hrest

/-- Python `x or y` keeps a non-empty `x`. -/
theorem pyOr_some_ne (x y : String) (hx : x ≠ "") : pyOr (some x) y = x := by
  simp [pyOr, hx]

/-- The chosen ticket id is never the empty string when the store's keys and
the fresh id are non-empty. -/
theorem chosen_tid_ne_empty (l : List (String × Ticket)) (sid fresh : String)
    (hWF : ∀ p ∈ l, p.1 ≠ "") (hf : fresh ≠ "") :
    pyOr (findSessionKey l sid) fresh ≠ "" := by
  cases h : findSessionKey l sid with
  | none => simpa [pyOr] using hf
  | some e =>
    obtain ⟨t, ht⟩ := findSessionKey_mem l sid e h
    have he : e ≠ "" := hWF (e, t) ht
    simpa [pyOr, he] using he

/-- After writing a ticket for `sid` under the id the source chooses
(`existing or fresh`), the session scan returns exactly that id. -/
theorem findSessionKey_after_upsert (l : List (String × Ticket)) (sid fresh : String)
    (v : Ticket) (hv : v.session_id = sid) (hWF : ∀ p ∈ l, p.1 ≠ "") :
    findSessionKey (assocSet l (pyOr (findSessionKey l sid) fresh) v) sid =
      some (pyOr (findSessionKey l sid) fresh) := by
  cases h : findSessionKey l sid with
  | none =>
    simp only [pyOr]
    by_cases hk : hasKey l fresh = true
    · simp only [assocSet, hk, if_true]
      rw [findSessionKey_map_replace l fresh sid v hv h, if_pos hk]
    · have hk' : hasKey l fresh = false := by simpa using hk
      simp only [assocSet, hk', Bool.false_eq_true, if_false]
      exact findSessionKey_append_new l fresh sid v hv h
  | some e =>
    obtain ⟨t, ht⟩ := findSessionKey_mem l sid e h
    have he : e ≠ "" := hWF (e, t) ht
    have hpy : pyOr (some e) fresh = e := by simp [pyOr, he]
    rw [hpy]
    have hk : hasKey l e = true := hasKey_of_mem l e t ht
    simp only [assocSet, hk, if_true]
    exact findSessionKey_map_replace_existing l e sid v hv h

/-- Claim C7: in any ticket store whose keys are non-empty (as every id the
source ever writes is), two consecutive `upsert_ticket` executions for the
same session choose the same ticket id, the second write preserves the
ticket's `created_at`, and its `updated_at` is refreshed to the second
clock reading. -/
theorem C7_upsert_stable (env : Env) (sid : String) (st1 st2 : EnvState)
    (now1 now2 : Nat) (f1 f2 : String)
    (hWF : ∀ p ∈ env.tickets, p.1 ≠ "") (hf1 : f1 ≠ "") :
    (upsert_ticket (upsert_ticket env sid st1 now1 f1).2 sid st2 now2 f2).1 =
      (upsert_ticket env sid st1 now1 f1).1 ∧
    (lookupA (upsert_ticket (upsert_ticket env sid st1 now1 f1).2 sid st2 now2 f2).2.tickets
        (upsert_ticket (upsert_ticket env sid st1 now1 f1).2 sid st2 now2 f2).1).map
        Ticket.created_at =
      (lookupA (upsert_ticket env sid st1 now1 f1).2.tickets
        (upsert_ticket env sid st1 now1 f1).1).map Ticket.created_at ∧
    (lookupA (upsert_ticket (upsert_ticket env sid st1 now1 f1).2 sid st2 now2 f2).2.tickets
        (upsert_ticket (upsert_ticket env sid st1 now1 f1).2 sid st2 now2 f2).1).map
        Ticket.updated_at = some now2 := by
  have h1fst : (upsert_ticket env sid st1 now1 f1).1 =
      pyOr (findSessionKey env.tickets sid) f1 := rfl
  have h1tks : (upsert_ticket env sid st1 now1 f1).2.tickets =
      assocSet env.tickets (pyOr (findSessionKey env.tickets sid) f1)
        (newTicket env sid st1 now1 (pyOr (findSessionKey env.tickets sid) f1)) := rfl
  have hsess : (newTicket env sid st1 now1
      (pyOr (findSessionKey env.tickets sid) f1)).session_id = sid := rfl
  have htidne : pyOr (findSessionKey env.tickets sid) f1 ≠ "" :=
    chosen_tid_ne_empty env.tickets sid f1 hWF hf1
  have hfind1 : findSessionKey (upsert_ticket env sid st1 now1 f1).2.tickets sid =
      some (pyOr (findSessionKey env.tickets sid) f1) := by
    rw [h1tks]
    exact findSessionKey_after_upsert env.tickets sid f1 _ hsess hWF
  have hch : pyOr (findSessionKey (upsert_ticket env sid st1 now1 f1).2.tickets sid) f2 =
      pyOr (findSessionKey env.tickets sid) f1 := by
    rw [hfind1, pyOr_some_ne _ _ htidne]
  have h2fst : (upsert_ticket (upsert_ticket env sid st1 now1 f1).2 sid st2 now2 f2).1 =
      pyOr (findSessionKey env.tickets sid) f1 := hch
  have hlook1 : lookupA (upsert_ticket env sid st1 now1 f1).2.tickets
      (pyOr (findSessionKey env.tickets sid) f1) =
      some (newTicket env sid st1 now1 (pyOr (findSessionKey env.tickets sid) f1)) := by
    rw [h1tks]
    exact lookupA_assocSet_self _ _ _
  have h2tks : (upsert_ticket (upsert_ticket env sid st1 now1 f1).2 sid st2 now2 f2).2.tickets =
      assocSet (upsert_ticket env sid st1 now1 f1).2.tickets
        (pyOr (findSessionKey env.tickets sid) f1)
        (newTicket (upsert_ticket env sid st1 now1 f1).2 sid st2 now2
          (pyOr (findSessionKey env.tickets sid) f1)) := by
    show assocSet (upsert_ticket env sid st1 now1 f1).2.tickets
        (pyOr (findSessionKey (upsert_ticket env sid st1 now1 f1).2.tickets sid) f2)
        (newTicket (upsert_ticket env sid st1 now1 f1).2 sid st2 now2
          (pyOr (findSessionKey (upsert_ticket env sid st1 now1 f1).2.tickets sid) f2)) = _
    rw [hch]
  have hlook2 : lookupA
      (upsert_ticket (upsert_ticket env sid st1 now1 f1).2 sid st2 now2 f2).2.tickets
      (pyOr (findSessionKey env.tickets sid) f1) =
      some (newTicket (upsert_ticket env sid st1 now1 f1).2 sid st2 now2
        (pyOr (findSessionKey env.tickets sid) f1)) := by
    rw [h2tks]
    exact lookupA_assocSet_self _ _ _
  have hcreated : (newTicket (upsert_ticket env sid st1 now1 f1).2 sid st2 now2
      (pyOr (findSessionKey env.tickets sid) f1)).created_at =
      (newTicket env sid st1 now1 (pyOr (findSessionKey env.tickets sid) f1)).created_at := by
    show (match lookupA (upsert_ticket env sid st1 now1 f1).2.tickets
        (pyOr (findSessionKey env.tickets sid) f1) with
      | some t => t.created_at
      | none => now2) = _
    rw [hlook1]
  refine ⟨h2fst, ?_, ?_⟩
  · rw [h2fst, h1fst, hlook2, hlook1]
    simp [hcreated]
  · rw [h2fst, hlook2]
    rfl

/-- Witness for C7 from the empty store: both upserts choose "t1", the first
clock reading stays as `created_at`, the second becomes `updated_at`. -/
theorem C7_upsert_stable_witness :
    (upsert_ticket (upsert_ticket initEnv "s" DEFAULT_STATE 1 "t1").2 "s" DEFAULT_STATE 2 "t2").1 =
      (upsert_ticket initEnv "s" DEFAULT_STATE 1 "t1").1 ∧
    (lookupA
        (upsert_ticket (upsert_ticket initEnv "s" DEFAULT_STATE 1 "t1").2 "s"
          DEFAULT_STATE 2 "t2").2.tickets
        (upsert_ticket (upsert_ticket initEnv "s" DEFAULT_STATE 1 "t1").2 "s"
          DEFAULT_STATE 2 "t2").1).map Ticket.created_at =
      (lookupA (upsert_ticket initEnv "s" DEFAULT_STATE 1 "t1").2.tickets
        (upsert_ticket initEnv "s" DEFAULT_STATE 1 "t1").1).map Ticket.created_at ∧
    (lookupA
        (upsert_ticket (upsert_ticket initEnv "s" DEFAULT_STATE 1 "t1").2 "s"
          DEFAULT_STATE 2 "t2").2.tickets
        (upsert_ticket (upsert_ticket initEnv "s" DEFAULT_STATE 1 "t1").2 "s"
          DEFAULT_STATE 2 "t2").1).map Ticket.updated_at = some 2 :=
  C7_upsert_stable initEnv "s" DEFAULT_STATE DEFAULT_STATE 1 2 "t1" "t2"
    (by intro p hp; simp [initEnv] at hp) (by decide)

/-! ### Claim C10: fresh states share the default mutable objects -/

/-- Claim C10: `dict(DEFAULT_STATE)` is a shallow copy, so every session
initialized without stored or prior state shares the module-level `details`
list and `collected` dict.  After session "A"'s first turn (an utterance
that also fills `best_time`), a brand-new session "B" begins from a state
whose object identities are `DEFAULT_STATE`'s, whose details already
contain A's utterance, and whose `best_time` slot is already filled with it. -/
theorem C10_shared_default_objects :
    ((get_or_init_state "B" none
          (chat initEnv "A" "i would like a cleaning tomorrow morning" none 1 "tA").1
          2).detailsRef = DEFAULT_STATE.detailsRef ∧
      (get_or_init_state "B" none
          (chat initEnv "A" "i would like a cleaning tomorrow morning" none 1 "tA").1
          2).collectedRef = DEFAULT_STATE.collectedRef) ∧
    getList (chat initEnv "A" "i would like a cleaning tomorrow morning" none 1 "tA").1
        DEFAULT_STATE.detailsRef = ["i would like a cleaning tomorrow morning"] ∧
    (getColl (chat initEnv "A" "i would like a cleaning tomorrow morning" none 1 "tA").1
        DEFAULT_STATE.collectedRef).best_time =
      some "i would like a cleaning tomorrow morning" := by
  decide

end Frontdesk
